import Mathlib

/-!
Shallow embedding of the FantasyBoardGame core (Character / Item /
BoardSquare / Board orchestration) and proofs about it.

Sources embedded:
  - Constants.h            : race stat profiles
  - Item.h / Weapon.cpp / Armour.cpp / Shield.cpp / Ring.cpp
                           : item variants and their stat effects
  - Character.h / Character.cpp
                           : effective-stat mutators, inventory operations
                             (pickUp / removeItem / addItemBack), attack
  - Player.cpp / Enemy.cpp : race-profile construction,
                             handleSuccessfulDefence, updateForTime
  - BoardSquare.cpp        : per-cell item/enemy slots, dropItem
  - Board.cpp              : playerPickUp orchestration

Modelling conventions: C++ `int` fields are modelled as `Int` (all values in
play are tiny, far from overflow); `double` chance fields are modelled as `ℚ`
(the program only stores and copies them in the code regions under study, it
performs no arithmetic on them there); `std::unique_ptr<T>` is modelled as
`Option T`, with a moved-from pointer becoming `none`; random rolls and the
global day/night flag are passed in explicitly as oracle arguments.
-/

namespace FantasyBoardGame

/-- Race statistic profile, mirroring `Constants::RaceStats` (Constants.h). -/
structure RaceStats where
  attack : Int
  attackChance : ℚ
  defence : Int
  defenceChance : ℚ
  health : Int
  strength : Int
  deriving Repr, DecidableEq

/-- Constants::HUMAN = {30, 2.0/3.0, 20, 1.0/2.0, 60, 100}. -/
def HUMAN : RaceStats := ⟨30, 2/3, 20, 1/2, 60, 100⟩

/-- Constants::ELF = {40, 1.0, 10, 1.0/4.0, 40, 70}. -/
def ELF : RaceStats := ⟨40, 1, 10, 1/4, 40, 70⟩

/-- Constants::DWARF = {30, 2.0/3.0, 20, 2.0/3.0, 50, 130}. -/
def DWARF : RaceStats := ⟨30, 2/3, 20, 2/3, 50, 130⟩

/-- Constants::HOBBIT = {25, 1.0/3.0, 20, 2.0/3.0, 70, 85}. -/
def HOBBIT : RaceStats := ⟨25, 1/3, 20, 2/3, 70, 85⟩

/-- Constants::ORC_DAY = {25, 1.0/4.0, 10, 1.0/4.0, 50, 130}. -/
def ORC_DAY : RaceStats := ⟨25, 1/4, 10, 1/4, 50, 130⟩

/-- Constants::ORC_NIGHT = {45, 1.0, 25, 1.0/2.0, 50, 130}. -/
def ORC_NIGHT : RaceStats := ⟨45, 1, 25, 1/2, 50, 130⟩

/-- Item category tag, mirroring `enum class ItemType` (Item.h). -/
inductive ItemType where
  | WEAPON
  | ARMOUR
  | SHIELD
  | RING
  deriving Repr, DecidableEq

/-- Concrete item, collapsing the Item class hierarchy (Item.h, Weapon.h,
Armour.h, Shield.h, Ring.h) into one inductive: each variant carries exactly
the constructor arguments of the corresponding C++ class. -/
inductive Item where
  | weapon (name : String) (weight : Int) (attackBoost : Int)
  | armour (name : String) (weight : Int) (defenceBoost attackPenalty : Int)
  | shield (name : String) (weight : Int) (defenceBoost attackPenalty : Int)
  | ring (name : String) (weight : Int) (healthBoost strengthBoost : Int)
  deriving Repr, DecidableEq

/-- Item::getWeight (Item.h). -/
def Item.getWeight : Item → Int
  | .weapon _ w _ => w
  | .armour _ w _ _ => w
  | .shield _ w _ _ => w
  | .ring _ w _ _ => w

/-- Item::getType (Item.h). -/
def Item.getType : Item → ItemType
  | .weapon _ _ _ => .WEAPON
  | .armour _ _ _ _ => .ARMOUR
  | .shield _ _ _ _ => .SHIELD
  | .ring _ _ _ _ => .RING

/-- Character state (Character.h): base stats snapshot, effective stats,
carried weight, chance fields and owned inventory.  Player's position and
gold and the Player/Enemy distinction play no role in the claims' code
paths, so a single state type covers both subclasses; race-specific virtual
behaviour is dispatched on `race` exactly as the C++ dispatches on `race_`. -/
structure Character where
  race : String
  baseAttack : Int
  baseDefence : Int
  baseHealth : Int
  baseStrength : Int
  attack : Int
  defence : Int
  health : Int
  strength : Int
  carriedWeight : Int
  attackChance : ℚ
  defenceChance : ℚ
  inventory : List Item
  deriving Repr, DecidableEq

/-- Character::Character (Character.cpp:26-35): base and effective stats both
start from the given values, carried weight 0; the inventory starts empty. -/
def Character.create (raceName : String) (s : RaceStats) : Character :=
  { race := raceName
    baseAttack := s.attack, baseDefence := s.defence
    baseHealth := s.health, baseStrength := s.strength
    attack := s.attack, defence := s.defence
    health := s.health, strength := s.strength
    carriedWeight := 0
    attackChance := s.attackChance, defenceChance := s.defenceChance
    inventory := [] }

/-- Character::modifyAttack (Character.h:183): add delta, clamp at 0. -/
def Character.modifyAttack (c : Character) (delta : Int) : Character :=
  let a := c.attack + delta
  { c with attack := if a < 0 then 0 else a }

/-- Character::modifyDefence (Character.h:184): add delta, clamp at 0. -/
def Character.modifyDefence (c : Character) (delta : Int) : Character :=
  let d := c.defence + delta
  { c with defence := if d < 0 then 0 else d }

/-- Character::modifyHealth (Character.h:185): add delta, clamp at 0. -/
def Character.modifyHealth (c : Character) (delta : Int) : Character :=
  let h := c.health + delta
  { c with health := if h < 0 then 0 else h }

/-- Character::modifyStrength (Character.h:186): add delta, clamp at 0. -/
def Character.modifyStrength (c : Character) (delta : Int) : Character :=
  let s := c.strength + delta
  { c with strength := if s < 0 then 0 else s }

/-- Character::setAttack (Character.h:189). -/
def Character.setAttack (c : Character) (v : Int) : Character :=
  { c with attack := v }

/-- Character::setAttackChance (Character.h:190). -/
def Character.setAttackChance (c : Character) (v : ℚ) : Character :=
  { c with attackChance := v }

/-- Character::setDefence (Character.h:191). -/
def Character.setDefence (c : Character) (v : Int) : Character :=
  { c with defence := v }

/-- Character::setDefenceChance (Character.h:192). -/
def Character.setDefenceChance (c : Character) (v : ℚ) : Character :=
  { c with defenceChance := v }

/-- Character::isAlive (Character.h:151). -/
def Character.isAlive (c : Character) : Bool := c.health > 0

/-- Item::applyEffect, dispatched over the four variants:
Weapon.cpp (modifyAttack(+boost)), Armour.cpp and Shield.cpp
(modifyDefence(+boost); if penalty nonzero, modifyAttack(-penalty)),
Ring.cpp (guarded modifyHealth(+h) then guarded modifyStrength(+s)). -/
def Item.applyEffect : Item → Character → Character
  | .weapon _ _ b, c => c.modifyAttack b
  | .armour _ _ d p, c =>
      let c1 := c.modifyDefence d
      if p ≠ 0 then c1.modifyAttack (-p) else c1
  | .shield _ _ d p, c =>
      let c1 := c.modifyDefence d
      if p ≠ 0 then c1.modifyAttack (-p) else c1
  | .ring _ _ h s, c =>
      let c1 := if h ≠ 0 then c.modifyHealth h else c
      if s ≠ 0 then c1.modifyStrength s else c1

/-- Item::removeEffect, dispatched over the four variants (Weapon.cpp,
Armour.cpp, Shield.cpp, Ring.cpp): each negates its applyEffect deltas. -/
def Item.removeEffect : Item → Character → Character
  | .weapon _ _ b, c => c.modifyAttack (-b)
  | .armour _ _ d p, c =>
      let c1 := c.modifyDefence (-d)
      if p ≠ 0 then c1.modifyAttack p else c1
  | .shield _ _ d p, c =>
      let c1 := c.modifyDefence (-d)
      if p ≠ 0 then c1.modifyAttack p else c1
  | .ring _ _ h s, c =>
      let c1 := if h ≠ 0 then c.modifyHealth (-h) else c
      if s ≠ 0 then c1.modifyStrength (-s) else c1

/-- Character::pickUp (Character.cpp:103-123).  The `std::unique_ptr<Item>`
argument is an `Option Item` (`none` = null pointer).  Returns the C++ bool
together with the updated character.  Checks in source order: null pointer,
category conflict (skipped for rings), weight versus strength; on success
applies the effect, adds the weight and appends to the inventory. -/
def Character.pickUp (c : Character) (item : Option Item) : Bool × Character :=
  match item with
  | none => (false, c)
  | some it =>
    if it.getType ≠ ItemType.RING ∧ c.inventory.any (fun j => j.getType == it.getType) then
      (false, c)
    else if c.carriedWeight + it.getWeight > c.strength then
      (false, c)
    else
      let c1 := it.applyEffect c
      (true, { c1 with
                carriedWeight := c1.carriedWeight + it.getWeight
                inventory := c1.inventory ++ [it] })

/-- Character::removeItem (Character.cpp:133-142): out-of-range index yields
null and no change; otherwise the item's effect is reversed, the carried
weight decreased (floored at 0) and the item erased and handed out. -/
def Character.removeItem (c : Character) (index : Nat) : Option Item × Character :=
  if hlt : index < c.inventory.length then
    let taken := c.inventory.get ⟨index, hlt⟩
    let c1 := taken.removeEffect c
    let cw := c1.carriedWeight - taken.getWeight
    (some taken, { c1 with
                    carriedWeight := if cw < 0 then 0 else cw
                    inventory := c1.inventory.eraseIdx index })
  else
    (none, c)

/-- Character::addItemBack (Character.cpp:151-158): null pointer or capacity
excess is silently refused; otherwise the effect is applied and the item
appended.  Note: unlike pickUp there is no category-conflict check. -/
def Character.addItemBack (c : Character) (item : Option Item) : Character :=
  match item with
  | none => c
  | some it =>
    if c.carriedWeight + it.getWeight > c.strength then c
    else
      let c1 := it.applyEffect c
      { c1 with
        carriedWeight := c1.carriedWeight + it.getWeight
        inventory := c1.inventory ++ [it] }

/-- Race-profile selection chain of Player::Player (Player.cpp:194-240):
every unrecognized race name falls through to the HUMAN profile. -/
def raceStatsForPlayer (raceName : String) : RaceStats :=
  if raceName = "Human" then HUMAN
  else if raceName = "Elf" then ELF
  else if raceName = "Dwarf" then DWARF
  else if raceName = "Hobbit" then HOBBIT
  else if raceName = "Orc" then ORC_DAY
  else HUMAN

/-- Race-profile selection chain of Enemy::Enemy (Enemy.cpp:156-191):
every race name other than Human/Elf/Dwarf/Hobbit falls through to the
ORC_DAY profile. -/
def raceStatsForEnemy (raceName : String) : RaceStats :=
  if raceName = "Human" then HUMAN
  else if raceName = "Elf" then ELF
  else if raceName = "Dwarf" then DWARF
  else if raceName = "Hobbit" then HOBBIT
  else ORC_DAY

/-- Player::Player (Player.cpp:194-240), restricted to the Character part
(position and gold do not participate in any claim). -/
def mkPlayer (raceName : String) : Character :=
  Character.create raceName (raceStatsForPlayer raceName)

/-- Enemy::Enemy (Enemy.cpp:156-191). -/
def mkEnemy (raceName : String) : Character :=
  Character.create raceName (raceStatsForEnemy raceName)

/-- Player::handleSuccessfulDefence (Player.cpp:261-286) and the textually
identical Enemy::handleSuccessfulDefence (Enemy.cpp:204-228).  The global
`Utility::isNight()` flag and the Hobbit's `Utility::randInt(0,5)` roll are
oracle arguments.  Returns the special damage together with the (possibly
healed) character. -/
def Character.handleSuccessfulDefence (c : Character) (night : Bool)
    (hobbitRoll : Int) : Int × Character :=
  if c.race = "Human" ∨ c.race = "Dwarf" then (0, c)
  else if c.race = "Elf" then (0, c.modifyHealth 1)
  else if c.race = "Hobbit" then (hobbitRoll, c)
  else if c.race = "Orc" then
    if night then (0, c.modifyHealth 1)
    else
      let adjusted := c.baseAttack - c.baseDefence
      let adjusted := if adjusted < 0 then 0 else adjusted
      (adjusted / 4, c)
  else (0, c)

/-- Character::attack (Character.cpp:61-93), as a function on the target
(the attacker is not mutated).  The two probability rolls and the oracles
consumed by handleSuccessfulDefence are explicit arguments: `rollAtk` is the
attacker's attackSuccess() roll, `rollDef` the target's defenceSuccess()
roll.  A dead target (and the null-target guard) leaves the target as is. -/
def Character.attackOn (attacker target : Character) (rollAtk rollDef : Bool)
    (night : Bool) (hobbitRoll : Int) : Character :=
  if ¬ target.isAlive then target
  else if ¬ rollAtk then target
  else if rollDef then
    let r := target.handleSuccessfulDefence night hobbitRoll
    if r.1 > 0 then r.2.modifyHealth (-r.1) else r.2
  else
    let damage := attacker.attack - target.defence
    let damage := if damage < 0 then 0 else damage
    target.modifyHealth (-damage)

/-- Player::updateForTime (Player.cpp:347-362) and the textually identical
Enemy::updateForTime (Enemy.cpp:248-262): a no-op unless the race is Orc,
otherwise the four fields are overwritten with the night or day profile. -/
def Character.updateForTime (c : Character) (isNight : Bool) : Character :=
  if c.race ≠ "Orc" then c
  else if isNight then
    (((c.setAttack ORC_NIGHT.attack).setAttackChance
        ORC_NIGHT.attackChance).setDefence
        ORC_NIGHT.defence).setDefenceChance ORC_NIGHT.defenceChance
  else
    (((c.setAttack ORC_DAY.attack).setAttackChance
        ORC_DAY.attackChance).setDefence
        ORC_DAY.defence).setDefenceChance ORC_DAY.defenceChance

/-- A board cell (BoardSquare.h): an optional item and an optional enemy,
each owned through a `unique_ptr` modelled as `Option`. -/
structure BoardSquare where
  item : Option Item
  enemy : Option Character
  deriving Repr, DecidableEq

/-- BoardSquare::BoardSquare (BoardSquare.cpp:17-19). -/
def BoardSquare.empty : BoardSquare := ⟨none, none⟩

/-- BoardSquare::hasItem (BoardSquare.cpp:108). -/
def BoardSquare.hasItem (sq : BoardSquare) : Bool := sq.item.isSome

/-- BoardSquare::hasEnemy (BoardSquare.cpp:102). -/
def BoardSquare.hasEnemy (sq : BoardSquare) : Bool := sq.enemy.isSome

/-- BoardSquare::placeItem (BoardSquare.cpp:45-47): unconditional move-assign
of the incoming pointer into the slot (a null pointer empties the slot). -/
def BoardSquare.placeItem (sq : BoardSquare) (item : Option Item) : BoardSquare :=
  { sq with item := item }

/-- BoardSquare::takeItem (BoardSquare.cpp:73-75): moves the slot's pointer
out, leaving the slot null. -/
def BoardSquare.takeItem (sq : BoardSquare) : Option Item × BoardSquare :=
  (sq.item, { sq with item := none })

/-- BoardSquare::dropItem (BoardSquare.cpp:90-96): fails on a null incoming
pointer or an occupied item slot; otherwise stores the item.  The enemy slot
is not consulted. -/
def BoardSquare.dropItem (sq : BoardSquare) (itemToDrop : Option Item) :
    Bool × BoardSquare :=
  match itemToDrop with
  | none => (false, sq)
  | some it =>
    if sq.item.isSome then (false, sq)
    else (true, { sq with item := some it })

/-- Board::playerPickUp (Board.cpp:143-160), restricted to the player and the
player's current square.  C++ move semantics are made explicit: `takeItem`
empties the square and yields the owning pointer `it`; the call
`player.pickUp(std::move(it))` transfers ownership into the callee and leaves
the caller's `it` null, so when pickUp returns false the rejected item has
already been destroyed with the callee's by-value parameter, and the
subsequent `sq->placeItem(std::move(it))` stores the null pointer. -/
def playerPickUp (p : Character) (sq : BoardSquare) : Character × BoardSquare :=
  if ¬ sq.hasItem then (p, sq)
  else
    let t := sq.takeItem
    let it := t.1
    let sq1 := t.2
    let r := p.pickUp it
    let movedFrom : Option Item := none
    if ¬ r.1 then (r.2, sq1.placeItem movedFrom)
    else (r.2, sq1)

/-- Total weight of a list of items (the quantity `carriedWeight_` is meant
to track). -/
def sumWeights (l : List Item) : Int := (l.map Item.getWeight).sum

/-- Number of items of a given category in a list. -/
def countType (l : List Item) (t : ItemType) : Nat :=
  l.countP (fun i => i.getType == t)

/-- Category-exclusivity property of an inventory: at most one item of each
non-Ring category (the three non-Ring categories spelled out). -/
def catExclusive (l : List Item) : Prop :=
  countType l ItemType.WEAPON ≤ 1 ∧
  countType l ItemType.ARMOUR ≤ 1 ∧
  countType l ItemType.SHIELD ≤ 1

instance (l : List Item) : Decidable (catExclusive l) := by
  unfold catExclusive
  infer_instance

/-- An item whose applyEffect/removeEffect never touches the strength stat:
every non-Ring item, and a Ring whose strengthBoost is 0. -/
def strengthNeutral : Item → Bool
  | .ring _ _ _ s => s == 0
  | _ => true

/-- One inventory operation of the kind quantified over in the inventory
invariant: a pickUp, an index-based removeItem, or an addItemBack. -/
inductive InvOp where
  | pick (i : Item)
  | remove (idx : Nat)
  | addBack (i : Item)
  deriving Repr, DecidableEq

/-- Runs one inventory operation on a character. -/
def applyInvOp (c : Character) : InvOp → Character
  | .pick i => (c.pickUp (some i)).2
  | .remove idx => (c.removeItem idx).2
  | .addBack i => c.addItemBack (some i)

/-- Runs a sequence of inventory operations left to right. -/
def runInvOps (c : Character) (ops : List InvOp) : Character :=
  ops.foldl applyInvOp c

/-- Operations under which the inventory invariants actually hold: pickUp and
removeItem only (no addItemBack), with picked items of non-negative weight
that do not modify strength. -/
def goodOp : InvOp → Bool
  | .pick i => decide (0 ≤ i.getWeight) && strengthNeutral i
  | .remove _ => true
  | .addBack _ => false

/-- Bookkeeping invariant tying carriedWeight_, the inventory contents and
the strength cap together. -/
def InvHolds (c : Character) : Prop :=
  c.carriedWeight = sumWeights c.inventory ∧
  c.carriedWeight ≤ c.strength ∧
  (∀ i ∈ c.inventory, 0 ≤ i.getWeight ∧ strengthNeutral i = true) ∧
  catExclusive c.inventory

/-- One call to one of the four public stat modifiers
(Character.h:183-186), with its delta. -/
inductive ModOp where
  | modAtk (d : Int)
  | modDef (d : Int)
  | modHp (d : Int)
  | modStr (d : Int)
  deriving Repr, DecidableEq

/-- Runs one modifier call. -/
def applyModOp (c : Character) : ModOp → Character
  | .modAtk d => c.modifyAttack d
  | .modDef d => c.modifyDefence d
  | .modHp d => c.modifyHealth d
  | .modStr d => c.modifyStrength d

/-- Runs a sequence of modifier calls left to right. -/
def runModOps (c : Character) (ops : List ModOp) : Character :=
  ops.foldl applyModOp c

/-- All four effective stats non-negative. -/
def statsNonneg (c : Character) : Prop :=
  0 ≤ c.attack ∧ 0 ≤ c.defence ∧ 0 ≤ c.health ∧ 0 ≤ c.strength

instance (c : Character) : Decidable (statsNonneg c) := by
  unfold statsNonneg
  infer_instance

instance (c : Character) : Decidable (InvHolds c) := by
  unfold InvHolds
  infer_instance

/-- The stat mutations performed by applying and then removing the given item
on the given character never trigger the 0-clamp: every intermediate and
final pre-clamp value is non-negative. -/
def noClampDuring : Item → Character → Prop
  | .weapon _ _ b, c => 0 ≤ c.attack + b ∧ 0 ≤ c.attack
  | .armour _ _ d p, c =>
      0 ≤ c.defence + d ∧ 0 ≤ c.defence ∧
      (p ≠ 0 → 0 ≤ c.attack - p ∧ 0 ≤ c.attack)
  | .shield _ _ d p, c =>
      0 ≤ c.defence + d ∧ 0 ≤ c.defence ∧
      (p ≠ 0 → 0 ≤ c.attack - p ∧ 0 ≤ c.attack)
  | .ring _ _ h s, c =>
      (h ≠ 0 → 0 ≤ c.health + h ∧ 0 ≤ c.health) ∧
      (s ≠ 0 → 0 ≤ c.strength + s ∧ 0 ≤ c.strength)

instance (i : Item) (c : Character) : Decidable (noClampDuring i c) := by
  cases i <;> (unfold noClampDuring; infer_instance)

theorem ite_clamp_eq_max (x : Int) : (if x < 0 then 0 else x) = max 0 x := by
  omega

theorem modifyAttack_attack (c : Character) (d : Int) :
    (c.modifyAttack d).attack = if c.attack + d < 0 then 0 else c.attack + d := rfl

theorem modifyAttack_defence (c : Character) (d : Int) :
    (c.modifyAttack d).defence = c.defence := rfl

theorem modifyAttack_health (c : Character) (d : Int) :
    (c.modifyAttack d).health = c.health := rfl

theorem modifyAttack_strength (c : Character) (d : Int) :
    (c.modifyAttack d).strength = c.strength := rfl

theorem modifyDefence_attack (c : Character) (d : Int) :
    (c.modifyDefence d).attack = c.attack := rfl

theorem modifyDefence_defence (c : Character) (d : Int) :
    (c.modifyDefence d).defence = if c.defence + d < 0 then 0 else c.defence + d := rfl

theorem modifyDefence_health (c : Character) (d : Int) :
    (c.modifyDefence d).health = c.health := rfl

theorem modifyDefence_strength (c : Character) (d : Int) :
    (c.modifyDefence d).strength = c.strength := rfl

theorem modifyHealth_attack (c : Character) (d : Int) :
    (c.modifyHealth d).attack = c.attack := rfl

theorem modifyHealth_defence (c : Character) (d : Int) :
    (c.modifyHealth d).defence = c.defence := rfl

theorem modifyHealth_health (c : Character) (d : Int) :
    (c.modifyHealth d).health = if c.health + d < 0 then 0 else c.health + d := rfl

theorem modifyHealth_strength (c : Character) (d : Int) :
    (c.modifyHealth d).strength = c.strength := rfl

theorem modifyStrength_attack (c : Character) (d : Int) :
    (c.modifyStrength d).attack = c.attack := rfl

theorem modifyStrength_defence (c : Character) (d : Int) :
    (c.modifyStrength d).defence = c.defence := rfl

theorem modifyStrength_health (c : Character) (d : Int) :
    (c.modifyStrength d).health = c.health := rfl

theorem modifyStrength_strength (c : Character) (d : Int) :
    (c.modifyStrength d).strength = if c.strength + d < 0 then 0 else c.strength + d := rfl

theorem statsNonneg_applyModOp (c : Character) (op : ModOp) (h : statsNonneg c) :
    statsNonneg (applyModOp c op) := by
  obtain ⟨h1, h2, h3, h4⟩ := h
  cases op <;>
    simp only [applyModOp, Character.modifyAttack, Character.modifyDefence,
      Character.modifyHealth, Character.modifyStrength, statsNonneg] <;>
    refine ⟨?_, ?_, ?_, ?_⟩ <;> first | assumption | (split <;> omega)

/-- C8: starting from a character whose four effective stats are
non-negative (as every freshly constructed Player or Enemy is), any finite
sequence of modifyAttack/modifyDefence/modifyHealth/modifyStrength calls with
arbitrary integer deltas leaves all four effective stats non-negative; since
the sequence is arbitrary, the bound holds after every call of any longer
sequence as well. -/
theorem C8_modify_nonneg (c : Character) (ops : List ModOp)
    (h : statsNonneg c) : statsNonneg (runModOps c ops) := by
  induction ops generalizing c with
  | nil => exact h
  | cons op tl ih =>
    have hstep := statsNonneg_applyModOp c op h
    simpa [runInvOps, runModOps, List.foldl_cons] using ih (applyModOp c op) hstep

theorem C8_witness :
    statsNonneg (mkPlayer "Human") ∧
    statsNonneg (runModOps (mkPlayer "Human")
      [ModOp.modAtk (-1000), ModOp.modHp (-1000), ModOp.modStr 7]) :=
  ⟨by decide,
   C8_modify_nonneg (mkPlayer "Human")
     [ModOp.modAtk (-1000), ModOp.modHp (-1000), ModOp.modStr 7] (by decide)⟩

/-- C10: a Player constructed with a race name outside
Human/Elf/Dwarf/Hobbit/Orc is built, without failing, from the HUMAN profile,
and an Enemy constructed with an unrecognized race name is built from the
ORC_DAY profile. -/
theorem C10_unknown_race_fallback (r : String)
    (h1 : r ≠ "Human") (h2 : r ≠ "Elf") (h3 : r ≠ "Dwarf")
    (h4 : r ≠ "Hobbit") (h5 : r ≠ "Orc") :
    mkPlayer r = Character.create r HUMAN ∧
    mkEnemy r = Character.create r ORC_DAY := by
  constructor
  · simp [mkPlayer, raceStatsForPlayer, h1, h2, h3, h4, h5]
  · simp [mkEnemy, raceStatsForEnemy, h1, h2, h3, h4]

theorem C10_witness :
    ("Goblin" ≠ "Human" ∧ "Goblin" ≠ "Elf" ∧ "Goblin" ≠ "Dwarf" ∧
     "Goblin" ≠ "Hobbit" ∧ "Goblin" ≠ "Orc") ∧
    (mkPlayer "Goblin" = Character.create "Goblin" HUMAN ∧
     mkEnemy "Goblin" = Character.create "Goblin" ORC_DAY) :=
  ⟨⟨by decide, by decide, by decide, by decide, by decide⟩,
   C10_unknown_race_fallback "Goblin" (by decide) (by decide) (by decide)
     (by decide) (by decide)⟩

/-- C7: updateForTime is a no-op for every non-Orc character; for an Orc it
overwrites attack, attackChance, defence and defenceChance with the day or
night profile values absolutely, so it is idempotent, and on a fresh Orc
player updateForTime(true) followed by updateForTime(false) leaves attack at
the day profile value 25. -/
theorem C7_updateForTime (c : Character) (f : Bool) :
    (c.race ≠ "Orc" → c.updateForTime f = c) ∧
    (c.updateForTime f).updateForTime f = c.updateForTime f ∧
    (c.race = "Orc" →
      (c.updateForTime f).attack = (if f then ORC_NIGHT else ORC_DAY).attack ∧
      (c.updateForTime f).attackChance =
        (if f then ORC_NIGHT else ORC_DAY).attackChance ∧
      (c.updateForTime f).defence = (if f then ORC_NIGHT else ORC_DAY).defence ∧
      (c.updateForTime f).defenceChance =
        (if f then ORC_NIGHT else ORC_DAY).defenceChance) ∧
    (((mkPlayer "Orc").updateForTime true).updateForTime false).attack = 25 := by
  refine ⟨fun hne => by simp [Character.updateForTime, hne], ?_, ?_, by decide⟩
  · by_cases hr : c.race = "Orc" <;> cases f <;>
      simp [Character.updateForTime, Character.setAttack,
        Character.setAttackChance, Character.setDefence,
        Character.setDefenceChance, hr]
  · intro hr
    cases f <;>
      simp [Character.updateForTime, Character.setAttack,
        Character.setAttackChance, Character.setDefence,
        Character.setDefenceChance, hr]

theorem C7_witness :
    ((mkPlayer "Elf").race ≠ "Orc" ∧
     (mkPlayer "Elf").updateForTime true = mkPlayer "Elf") ∧
    ((mkPlayer "Orc").race = "Orc" ∧
     ((mkPlayer "Orc").updateForTime true).attack =
       (if true then ORC_NIGHT else ORC_DAY).attack) :=
  ⟨⟨by decide, (C7_updateForTime (mkPlayer "Elf") true).1 (by decide)⟩,
   ⟨by decide, ((C7_updateForTime (mkPlayer "Orc") true).2.2.1 (by decide)).1⟩⟩

/-- C6: for an Orc (with the non-negative health every reachable character
has), handleSuccessfulDefence at night returns 0 damage and raises health by
exactly 1; during the day it leaves the character unchanged and returns
max(0, baseAttack - baseDefence) / 4 by integer division on the base stats. -/
theorem C6_orc_defence (c : Character) (roll : Int)
    (hrace : c.race = "Orc") (hh : 0 ≤ c.health) :
    (c.handleSuccessfulDefence true roll).1 = 0 ∧
    (c.handleSuccessfulDefence true roll).2.health = c.health + 1 ∧
    (c.handleSuccessfulDefence false roll).1 =
      max 0 (c.baseAttack - c.baseDefence) / 4 ∧
    (c.handleSuccessfulDefence false roll).2 = c := by
  have hmax := ite_clamp_eq_max (c.baseAttack - c.baseDefence)
  refine ⟨?_, ?_, ?_, ?_⟩ <;>
    simp [Character.handleSuccessfulDefence, hrace, Character.modifyHealth] <;>
    omega

theorem C6_witness :
    ((mkEnemy "Orc").race = "Orc" ∧ 0 ≤ (mkEnemy "Orc").health) ∧
    (((mkEnemy "Orc").handleSuccessfulDefence true 2).1 = 0 ∧
     ((mkEnemy "Orc").handleSuccessfulDefence true 2).2.health =
       (mkEnemy "Orc").health + 1 ∧
     ((mkEnemy "Orc").handleSuccessfulDefence false 2).1 =
       max 0 ((mkEnemy "Orc").baseAttack - (mkEnemy "Orc").baseDefence) / 4 ∧
     ((mkEnemy "Orc").handleSuccessfulDefence false 2).2 = mkEnemy "Orc") :=
  ⟨⟨by decide, by decide⟩, C6_orc_defence (mkEnemy "Orc") 2 (by decide) (by decide)⟩

/-- C4: when the attack roll succeeds and the target's defence roll fails,
the target's new health is its old health minus max(0, effective attack -
effective defence), clamped at 0; in particular a Human player (effective
attack 30) attacking an alive target with effective defence 0 and health 60
leaves it at health 30, i.e. deals exactly 30 damage. -/
theorem C4_attack_damage (attacker target : Character) (night : Bool)
    (roll : Int) (halive : target.isAlive = true) :
    (attacker.attackOn target true false night roll).health =
      max 0 (target.health - max 0 (attacker.attack - target.defence)) ∧
    ((mkPlayer "Human").attackOn ((mkEnemy "Human").setDefence 0) true false
        night roll).health = 30 := by
  constructor
  · simp [Character.attackOn, halive, Character.modifyHealth]
    omega
  · have halive2 : ((mkEnemy "Human").setDefence 0).isAlive = true := by decide
    simp [Character.attackOn, halive2, Character.modifyHealth]
    decide

theorem C4_witness :
    ((mkEnemy "Human").setDefence 0).isAlive = true ∧
    (((mkPlayer "Human").attackOn ((mkEnemy "Human").setDefence 0) true false
        false 0).health =
      max 0 (((mkEnemy "Human").setDefence 0).health -
        max 0 ((mkPlayer "Human").attack -
          ((mkEnemy "Human").setDefence 0).defence)) ∧
     ((mkPlayer "Human").attackOn ((mkEnemy "Human").setDefence 0) true false
        false 0).health = 30) :=
  ⟨by decide,
   C4_attack_damage (mkPlayer "Human") ((mkEnemy "Human").setDefence 0)
     false 0 (by decide)⟩

/-- C9: after updateForTime(f) an Orc's effective attack and defence equal
exactly the day or night profile constants whatever items were applied
before, and removing a previously applied Weapon afterwards subtracts its
boost from the bare profile attack value (no clamping when the boost does not
exceed the profile value). -/
theorem C9_override_discards_items (c : Character) (f : Bool) (n : String)
    (w b : Int) (hrace : c.race = "Orc")
    (hb : b ≤ (if f then ORC_NIGHT else ORC_DAY).attack) :
    ((c.updateForTime f).attack = (if f then ORC_NIGHT else ORC_DAY).attack ∧
     (c.updateForTime f).defence = (if f then ORC_NIGHT else ORC_DAY).defence) ∧
    ((Item.weapon n w b).removeEffect (c.updateForTime f)).attack =
      (if f then ORC_NIGHT else ORC_DAY).attack - b := by
  have h1 : (c.updateForTime f).attack = (if f then ORC_NIGHT else ORC_DAY).attack := by
    cases f <;>
      simp [Character.updateForTime, Character.setAttack,
        Character.setAttackChance, Character.setDefence,
        Character.setDefenceChance, hrace]
  have h2 : (c.updateForTime f).defence = (if f then ORC_NIGHT else ORC_DAY).defence := by
    cases f <;>
      simp [Character.updateForTime, Character.setAttack,
        Character.setAttackChance, Character.setDefence,
        Character.setDefenceChance, hrace]
  refine ⟨⟨h1, h2⟩, ?_⟩
  simp [Item.removeEffect, Character.modifyAttack, h1]
  cases f <;> simp_all [ORC_NIGHT, ORC_DAY] <;> omega

theorem C9_witness :
    (((mkPlayer "Orc").modifyAttack 10).race = "Orc" ∧
     (10 : Int) ≤ (if true then ORC_NIGHT else ORC_DAY).attack) ∧
    (((((mkPlayer "Orc").modifyAttack 10).updateForTime true).attack =
        (if true then ORC_NIGHT else ORC_DAY).attack ∧
      (((mkPlayer "Orc").modifyAttack 10).updateForTime true).defence =
        (if true then ORC_NIGHT else ORC_DAY).defence) ∧
     ((Item.weapon "Sword" 10 10).removeEffect
        (((mkPlayer "Orc").modifyAttack 10).updateForTime true)).attack =
       (if true then ORC_NIGHT else ORC_DAY).attack - 10) :=
  ⟨⟨by decide, by decide⟩,
   C9_override_discards_items ((mkPlayer "Orc").modifyAttack 10) true
     "Sword" 10 10 (by decide) (by decide)⟩

/-- C1: evaluation of Board::playerPickUp at a rejecting input.  A Human
player already carrying a Sword stands on a cell holding a Dagger; the
category conflict makes Character::pickUp return false, and after
playerPickUp the cell's item slot is empty and the player's inventory is
unchanged — the Dagger is in neither place, i.e. it has been lost, because
the C++ code re-places the moved-from (null) unique_ptr instead of the item. -/
theorem C1_rejected_item_lost :
    ((((mkPlayer "Human").pickUp (some (Item.weapon "Sword" 10 10))).2.pickUp
        (some (Item.weapon "Dagger" 5 5))).1 = false) ∧
    (playerPickUp (((mkPlayer "Human").pickUp (some (Item.weapon "Sword" 10 10))).2)
        (BoardSquare.mk (some (Item.weapon "Dagger" 5 5)) none)).2.item = none ∧
    (playerPickUp (((mkPlayer "Human").pickUp (some (Item.weapon "Sword" 10 10))).2)
        (BoardSquare.mk (some (Item.weapon "Dagger" 5 5)) none)).1.inventory =
      [Item.weapon "Sword" 10 10] := by
  decide

/-- C3 counterexample: a square whose enemy slot is occupied and whose item
slot is free accepts dropItem — it returns true and stores the item — even
though the claim says dropItem fails whenever either slot is occupied. -/
theorem C3_counterexample :
    (BoardSquare.mk none (some (mkEnemy "Orc"))).hasEnemy = true ∧
    ((BoardSquare.mk none (some (mkEnemy "Orc"))).dropItem
        (some (Item.weapon "Sword" 10 10))).1 = true ∧
    ((BoardSquare.mk none (some (mkEnemy "Orc"))).dropItem
        (some (Item.weapon "Sword" 10 10))).2.item =
      some (Item.weapon "Sword" 10 10) := by
  refine ⟨rfl, rfl, rfl⟩

/-- C3 amended: BoardSquare::dropItem fails (returns false and leaves the
square unchanged) exactly when the incoming item is null or the item slot is
already occupied — the enemy slot is not consulted; otherwise it places the
item in the square and returns true. -/
theorem C3_dropItem_amended (sq : BoardSquare) (it : Item) :
    sq.dropItem none = (false, sq) ∧
    (sq.item.isSome = true → sq.dropItem (some it) = (false, sq)) ∧
    (sq.item = none →
      sq.dropItem (some it) = (true, { sq with item := some it })) := by
  refine ⟨rfl, fun hocc => ?_, fun hfree => ?_⟩
  · simp [BoardSquare.dropItem, hocc]
  · simp [BoardSquare.dropItem, hfree]

theorem C3_witness :
    ((BoardSquare.mk (some (Item.weapon "Sword" 10 10)) none).item.isSome = true ∧
     (BoardSquare.mk (some (Item.weapon "Sword" 10 10)) none).dropItem
        (some (Item.weapon "Dagger" 5 5)) =
       (false, BoardSquare.mk (some (Item.weapon "Sword" 10 10)) none)) ∧
    (BoardSquare.mk none none).dropItem (some (Item.weapon "Dagger" 5 5)) =
      (true, BoardSquare.mk (some (Item.weapon "Dagger" 5 5)) none) :=
  ⟨⟨rfl,
    (C3_dropItem_amended (BoardSquare.mk (some (Item.weapon "Sword" 10 10)) none)
      (Item.weapon "Dagger" 5 5)).2.1 rfl⟩,
   (C3_dropItem_amended (BoardSquare.mk none none)
      (Item.weapon "Dagger" 5 5)).2.2 rfl⟩

/-- C5: for every Item variant and every Character for which the apply and
remove mutations never trigger the 0-clamp, applyEffect followed by
removeEffect with the same item restores all four effective integer stats
exactly. -/
theorem C5_apply_remove_roundtrip (i : Item) (c : Character)
    (h : noClampDuring i c) :
    (i.removeEffect (i.applyEffect c)).attack = c.attack ∧
    (i.removeEffect (i.applyEffect c)).defence = c.defence ∧
    (i.removeEffect (i.applyEffect c)).health = c.health ∧
    (i.removeEffect (i.applyEffect c)).strength = c.strength := by
  cases i with
  | weapon n w b =>
    obtain ⟨h1, h2⟩ := h
    refine ⟨?_, rfl, rfl, rfl⟩
    simp only [Item.applyEffect, Item.removeEffect, modifyAttack_attack]
    split_ifs <;> omega
  | armour n w d p =>
    obtain ⟨h1, h2, h3⟩ := h
    by_cases hp : p = 0
    · simp only [Item.applyEffect, Item.removeEffect, hp, ne_eq,
        not_true_eq_false, if_false, reduceIte]
      refine ⟨rfl, ?_, rfl, rfl⟩
      simp only [modifyDefence_defence]
      split_ifs <;> omega
    · obtain ⟨h4, h5⟩ := h3 hp
      simp only [Item.applyEffect, Item.removeEffect, hp, ne_eq,
        not_false_eq_true, if_true, reduceIte]
      refine ⟨?_, ?_, rfl, rfl⟩
      · simp only [modifyAttack_attack, modifyDefence_attack]
        split_ifs <;> omega
      · simp only [modifyAttack_defence, modifyDefence_defence]
        split_ifs <;> omega
  | shield n w d p =>
    obtain ⟨h1, h2, h3⟩ := h
    by_cases hp : p = 0
    · simp only [Item.applyEffect, Item.removeEffect, hp, ne_eq,
        not_true_eq_false, if_false, reduceIte]
      refine ⟨rfl, ?_, rfl, rfl⟩
      simp only [modifyDefence_defence]
      split_ifs <;> omega
    · obtain ⟨h4, h5⟩ := h3 hp
      simp only [Item.applyEffect, Item.removeEffect, hp, ne_eq,
        not_false_eq_true, if_true, reduceIte]
      refine ⟨?_, ?_, rfl, rfl⟩
      · simp only [modifyAttack_attack, modifyDefence_attack]
        split_ifs <;> omega
      · simp only [modifyAttack_defence, modifyDefence_defence]
        split_ifs <;> omega
  | ring n w hb sb =>
    obtain ⟨h1, h2⟩ := h
    by_cases hh : hb = 0 <;> by_cases hs : sb = 0
    · simp only [Item.applyEffect, Item.removeEffect, hh, hs, ne_eq,
        not_true_eq_false, if_false, reduceIte]
      exact ⟨trivial, trivial, trivial, trivial⟩
    · obtain ⟨h3, h4⟩ := h2 hs
      simp only [Item.applyEffect, Item.removeEffect, hh, hs, ne_eq,
        not_true_eq_false, not_false_eq_true, if_false, if_true, reduceIte]
      refine ⟨rfl, rfl, rfl, ?_⟩
      simp only [modifyStrength_strength]
      split_ifs <;> omega
    · obtain ⟨h3, h4⟩ := h1 hh
      simp only [Item.applyEffect, Item.removeEffect, hh, hs, ne_eq,
        not_true_eq_false, not_false_eq_true, if_false, if_true, reduceIte]
      refine ⟨rfl, rfl, ?_, rfl⟩
      simp only [modifyHealth_health]
      split_ifs <;> omega
    · obtain ⟨h3, h4⟩ := h1 hh
      obtain ⟨h5, h6⟩ := h2 hs
      simp only [Item.applyEffect, Item.removeEffect, hh, hs, ne_eq,
        not_false_eq_true, if_true, reduceIte]
      refine ⟨rfl, rfl, ?_, ?_⟩
      · simp only [modifyHealth_health, modifyStrength_health]
        split_ifs <;> omega
      · simp only [modifyHealth_strength, modifyStrength_strength]
        split_ifs <;> omega

theorem C5_witness :
    noClampDuring (Item.shield "Large Shield" 30 10 5) (mkPlayer "Human") ∧
    (((Item.shield "Large Shield" 30 10 5).removeEffect
        ((Item.shield "Large Shield" 30 10 5).applyEffect
          (mkPlayer "Human"))).attack = (mkPlayer "Human").attack ∧
     ((Item.shield "Large Shield" 30 10 5).removeEffect
        ((Item.shield "Large Shield" 30 10 5).applyEffect
          (mkPlayer "Human"))).defence = (mkPlayer "Human").defence ∧
     ((Item.shield "Large Shield" 30 10 5).removeEffect
        ((Item.shield "Large Shield" 30 10 5).applyEffect
          (mkPlayer "Human"))).health = (mkPlayer "Human").health ∧
     ((Item.shield "Large Shield" 30 10 5).removeEffect
        ((Item.shield "Large Shield" 30 10 5).applyEffect
          (mkPlayer "Human"))).strength = (mkPlayer "Human").strength) :=
  ⟨by decide,
   C5_apply_remove_roundtrip (Item.shield "Large Shield" 30 10 5)
     (mkPlayer "Human") (by decide)⟩

theorem modifyAttack_inventory (c : Character) (d : Int) :
    (c.modifyAttack d).inventory = c.inventory := rfl

theorem modifyAttack_carriedWeight (c : Character) (d : Int) :
    (c.modifyAttack d).carriedWeight = c.carriedWeight := rfl

theorem modifyDefence_inventory (c : Character) (d : Int) :
    (c.modifyDefence d).inventory = c.inventory := rfl

theorem modifyDefence_carriedWeight (c : Character) (d : Int) :
    (c.modifyDefence d).carriedWeight = c.carriedWeight := rfl

theorem modifyHealth_inventory (c : Character) (d : Int) :
    (c.modifyHealth d).inventory = c.inventory := rfl

theorem modifyHealth_carriedWeight (c : Character) (d : Int) :
    (c.modifyHealth d).carriedWeight = c.carriedWeight := rfl

theorem modifyStrength_inventory (c : Character) (d : Int) :
    (c.modifyStrength d).inventory = c.inventory := rfl

theorem modifyStrength_carriedWeight (c : Character) (d : Int) :
    (c.modifyStrength d).carriedWeight = c.carriedWeight := rfl

theorem applyEffect_inventory (i : Item) (c : Character) :
    (i.applyEffect c).inventory = c.inventory := by
  cases i <;> simp only [Item.applyEffect] <;>
    first | rfl | (split_ifs <;> rfl)

theorem applyEffect_carriedWeight (i : Item) (c : Character) :
    (i.applyEffect c).carriedWeight = c.carriedWeight := by
  cases i <;> simp only [Item.applyEffect] <;>
    first | rfl | (split_ifs <;> rfl)

theorem applyEffect_strength (i : Item) (c : Character)
    (hn : strengthNeutral i = true) : (i.applyEffect c).strength = c.strength := by
  cases i with
  | ring n w hb sb =>
    simp only [strengthNeutral, beq_iff_eq] at hn
    subst hn
    simp only [Item.applyEffect, ne_eq, not_true_eq_false, if_false]
    split_ifs <;> rfl
  | weapon n w b => rfl
  | armour n w d p =>
    simp only [Item.applyEffect]
    split_ifs <;> rfl
  | shield n w d p =>
    simp only [Item.applyEffect]
    split_ifs <;> rfl

theorem removeEffect_inventory (i : Item) (c : Character) :
    (i.removeEffect c).inventory = c.inventory := by
  cases i <;> simp only [Item.removeEffect] <;>
    first | rfl | (split_ifs <;> rfl)

theorem removeEffect_carriedWeight (i : Item) (c : Character) :
    (i.removeEffect c).carriedWeight = c.carriedWeight := by
  cases i <;> simp only [Item.removeEffect] <;>
    first | rfl | (split_ifs <;> rfl)

theorem removeEffect_strength (i : Item) (c : Character)
    (hn : strengthNeutral i = true) : (i.removeEffect c).strength = c.strength := by
  cases i with
  | ring n w hb sb =>
    simp only [strengthNeutral, beq_iff_eq] at hn
    subst hn
    simp only [Item.removeEffect, ne_eq, not_true_eq_false, if_false]
    split_ifs <;> rfl
  | weapon n w b => rfl
  | armour n w d p =>
    simp only [Item.removeEffect]
    split_ifs <;> rfl
  | shield n w d p =>
    simp only [Item.removeEffect]
    split_ifs <;> rfl

theorem sumWeights_cons (a : Item) (l : List Item) :
    sumWeights (a :: l) = a.getWeight + sumWeights l := by
  simp [sumWeights]

theorem sumWeights_append (l : List Item) (i : Item) :
    sumWeights (l ++ [i]) = sumWeights l + i.getWeight := by
  simp [sumWeights]

theorem sumWeights_nonneg (l : List Item) (h : ∀ i ∈ l, 0 ≤ i.getWeight) :
    0 ≤ sumWeights l := by
  induction l with
  | nil => simp [sumWeights]
  | cons a tl ih =>
    rw [sumWeights_cons]
    have ha := h a (by simp)
    have htl := ih (fun j hj => h j (by simp [hj]))
    omega

theorem sumWeights_eraseIdx (l : List Item) (k : Nat) (hk : k < l.length) :
    sumWeights (l.eraseIdx k) + (l.get ⟨k, hk⟩).getWeight = sumWeights l := by
  induction l generalizing k with
  | nil => simp at hk
  | cons a tl ih =>
    cases k with
    | zero =>
      simp only [List.eraseIdx, List.get, sumWeights_cons]
      omega
    | succ m =>
      have hm : m < tl.length := by simpa using hk
      have := ih m hm
      simp only [List.eraseIdx, List.get, sumWeights_cons]
      omega

theorem countType_append (l : List Item) (i : Item) (t : ItemType) :
    countType (l ++ [i]) t =
      countType l t + (if i.getType = t then 1 else 0) := by
  simp [countType, List.countP_append, List.countP_cons]

theorem countType_eraseIdx_le (l : List Item) (k : Nat) (t : ItemType) :
    countType (l.eraseIdx k) t ≤ countType l t :=
  (List.eraseIdx_sublist l k).countP_le _

theorem countType_eq_zero_of_not_any (l : List Item) (t : ItemType)
    (h : ¬ l.any (fun j => j.getType == t) = true) : countType l t = 0 := by
  simp only [List.any_eq_true, beq_iff_eq, not_exists, not_and] at h
  simp only [countType, List.countP_eq_zero, beq_iff_eq]
  exact h

theorem catExclusive_append (l : List Item) (i : Item)
    (hfree : i.getType ≠ ItemType.RING → countType l i.getType = 0)
    (hcat : catExclusive l) : catExclusive (l ++ [i]) := by
  obtain ⟨hw, ha, hs⟩ := hcat
  have key : ∀ t : ItemType, t ≠ ItemType.RING → countType l t ≤ 1 →
      countType (l ++ [i]) t ≤ 1 := by
    intro t htr hle
    rw [countType_append]
    by_cases ht : i.getType = t
    · have h0 : countType l i.getType = 0 := by
        apply hfree
        rw [ht]
        exact htr
      rw [ht] at h0
      rw [if_pos ht]
      omega
    · rw [if_neg ht]
      omega
  exact ⟨key _ (by decide) hw, key _ (by decide) ha, key _ (by decide) hs⟩

theorem invHolds_pickUp (c : Character) (i : Item) (hw : 0 ≤ i.getWeight)
    (hn : strengthNeutral i = true) (h : InvHolds c) :
    InvHolds (c.pickUp (some i)).2 := by
  obtain ⟨hcw, hle, hitems, hcat⟩ := h
  simp only [Character.pickUp]
  split_ifs with hconf hover
  · exact ⟨hcw, hle, hitems, hcat⟩
  · exact ⟨hcw, hle, hitems, hcat⟩
  · push_neg at hconf
    refine ⟨?_, ?_, ?_, ?_⟩
    · simp only [applyEffect_inventory, applyEffect_carriedWeight,
        sumWeights_append]
      omega
    · simp only [applyEffect_inventory, applyEffect_carriedWeight,
        applyEffect_strength i c hn]
      omega
    · intro j hj
      simp only [applyEffect_inventory, List.mem_append,
        List.mem_singleton] at hj
      rcases hj with hj | rfl
      · exact hitems j hj
      · exact ⟨hw, hn⟩
    · simp only [applyEffect_inventory]
      exact catExclusive_append c.inventory i
        (fun hring => countType_eq_zero_of_not_any _ _ (hconf hring)) hcat

theorem invHolds_removeItem (c : Character) (k : Nat) (h : InvHolds c) :
    InvHolds (c.removeItem k).2 := by
  obtain ⟨hcw, hle, hitems, hcat⟩ := h
  unfold Character.removeItem
  split
  case isFalse => exact ⟨hcw, hle, hitems, hcat⟩
  case isTrue hk =>
    have hmem : c.inventory.get ⟨k, hk⟩ ∈ c.inventory := List.get_mem _ _ _
    obtain ⟨hw0, hn0⟩ := hitems _ hmem
    have hsum := sumWeights_eraseIdx c.inventory k hk
    have hnn : 0 ≤ sumWeights (c.inventory.eraseIdx k) :=
      sumWeights_nonneg _
        (fun j hj => (hitems j (List.eraseIdx_subset _ _ hj)).1)
    refine ⟨?_, ?_, ?_, ?_⟩
    · simp only [removeEffect_inventory, removeEffect_carriedWeight]
      omega
    · simp only [removeEffect_inventory, removeEffect_carriedWeight,
        removeEffect_strength _ c hn0]
      omega
    · intro j hj
      simp only [removeEffect_inventory] at hj
      exact hitems j (List.eraseIdx_subset _ _ hj)
    · obtain ⟨h1, h2, h3⟩ := hcat
      simp only [removeEffect_inventory]
      exact ⟨le_trans (countType_eraseIdx_le _ _ _) h1,
        le_trans (countType_eraseIdx_le _ _ _) h2,
        le_trans (countType_eraseIdx_le _ _ _) h3⟩

theorem invHolds_runInvOps (c : Character) (ops : List InvOp)
    (hc : InvHolds c) (hops : ∀ op ∈ ops, goodOp op = true) :
    InvHolds (runInvOps c ops) := by
  induction ops generalizing c with
  | nil => exact hc
  | cons op tl ih =>
    have hop := hops op (by simp)
    have htl : ∀ o ∈ tl, goodOp o = true := fun o ho => hops o (by simp [ho])
    have hstep : InvHolds (applyInvOp c op) := by
      cases op with
      | pick i =>
        simp only [goodOp, Bool.and_eq_true, decide_eq_true_eq] at hop
        exact invHolds_pickUp c i hop.1 hop.2 hc
      | remove k => exact invHolds_removeItem c k hc
      | addBack i => simp [goodOp] at hop
    exact ih (applyInvOp c op) hstep htl

/-- C2 counterexample: the claimed invariants fail on the code.  (1) A Human
player who pickUps a Sword and then addItemBacks a Dagger holds two WEAPONs,
because addItemBack checks only capacity, not category.  (2) A Human player
(strength 100) who pickUps a strength ring (weight 1, +50 strength) and then
a 140-weight armour, and then removeItems the ring, is left with total
inventory weight 140 > strength 100. -/
theorem C2_counterexample :
    (¬ catExclusive (runInvOps (mkPlayer "Human")
        [InvOp.pick (Item.weapon "Sword" 10 10),
         InvOp.addBack (Item.weapon "Dagger" 5 5)]).inventory) ∧
    (¬ sumWeights (runInvOps (mkPlayer "Human")
        [InvOp.pick (Item.ring "Band" 1 0 50),
         InvOp.pick (Item.armour "Tower Plate" 140 5 0),
         InvOp.remove 0]).inventory ≤
      (runInvOps (mkPlayer "Human")
        [InvOp.pick (Item.ring "Band" 1 0 50),
         InvOp.pick (Item.armour "Tower Plate" 140 5 0),
         InvOp.remove 0]).strength) := by
  decide

/-- C2 amended: for every Character starting with an empty inventory and zero
carried weight and a non-negative strength (as every freshly constructed
Player/Enemy does), and every sequence of pickUp and removeItem operations —
no addItemBack — whose picked items have non-negative weight and do not
modify strength (i.e. are not Rings with a non-zero strengthBoost), the
inventory holds at most one item of each non-Ring category and the sum of the
weights of the contained items is at most the current strength. -/
theorem C2_inventory_invariants (c : Character) (ops : List InvOp)
    (hinv : c.inventory = []) (hcw : c.carriedWeight = 0)
    (hstr : 0 ≤ c.strength) (hops : ∀ op ∈ ops, goodOp op = true) :
    catExclusive (runInvOps c ops).inventory ∧
    sumWeights (runInvOps c ops).inventory ≤ (runInvOps c ops).strength := by
  have h0 : InvHolds c := by
    refine ⟨?_, ?_, ?_, ?_⟩ <;>
      simp [hinv, hcw, hstr, sumWeights, countType, catExclusive]
  obtain ⟨ha, hb, _, hd⟩ := invHolds_runInvOps c ops h0 hops
  exact ⟨hd, ha ▸ hb⟩

theorem C2_witness :
    ((mkPlayer "Human").inventory = [] ∧
     (mkPlayer "Human").carriedWeight = 0 ∧
     0 ≤ (mkPlayer "Human").strength ∧
     (∀ op ∈ [InvOp.pick (Item.weapon "Sword" 10 10),
              InvOp.pick (Item.armour "Plate Armour" 40 10 5),
              InvOp.remove 0], goodOp op = true)) ∧
    (catExclusive (runInvOps (mkPlayer "Human")
        [InvOp.pick (Item.weapon "Sword" 10 10),
         InvOp.pick (Item.armour "Plate Armour" 40 10 5),
         InvOp.remove 0]).inventory ∧
     sumWeights (runInvOps (mkPlayer "Human")
        [InvOp.pick (Item.weapon "Sword" 10 10),
         InvOp.pick (Item.armour "Plate Armour" 40 10 5),
         InvOp.remove 0]).inventory ≤
       (runInvOps (mkPlayer "Human")
        [InvOp.pick (Item.weapon "Sword" 10 10),
         InvOp.pick (Item.armour "Plate Armour" 40 10 5),
         InvOp.remove 0]).strength) :=
  ⟨⟨by decide, by decide, by decide, by decide⟩,
   C2_inventory_invariants (mkPlayer "Human")
     [InvOp.pick (Item.weapon "Sword" 10 10),
      InvOp.pick (Item.armour "Plate Armour" 40 10 5),
      InvOp.remove 0] (by decide) (by decide) (by decide) (by decide)⟩

end FantasyBoardGame
